import Mathlib

/-!
Shallow embedding of the icon resolution and normalization pipeline of
`src/common.rs` (ZorinFoss/web-apps).

External libraries used by the source (`url`, `usvg`, `image`, `reqwest`,
`walkdir`, `svg`, `base64`, `dirs`) and the operating system (filesystem,
network) are modelled as oracle fields of an `Env` record; the control flow
of every embedded function follows the Rust source line by line.
-/

namespace WebApps

/-- Raw bytes (`bytes::Bytes`, `Vec<u8>`), modelled as a list of naturals. -/
abbrev ByteBuf := List Nat

/-- A `PathBuf`, modelled as its list of path components.  An absolute path
such as `/usr/share/icons` has a leading empty component standing for the
root separator. -/
abbrev PathC := List String

/-- Splits a list at every occurrence of the separator, keeping empty pieces,
with the semantics of Rust `str::split(char)`: the empty input yields one
empty piece. -/
def splitOnChar (sep : Char) : List Char → List (List Char)
  | [] => [[]]
  | x :: xs =>
    let r := splitOnChar sep xs
    if x = sep then [] :: r
    else
      match r with
      | [] => [[x]]
      | y :: ys => (x :: y) :: ys

/-- `str::split(sep)` collected into a list of strings. -/
def splitStr (sep : Char) (s : String) : List String :=
  (splitOnChar sep s.data).map List.asString

/-- `PathBuf::push`/`join` with a relative (possibly multi-component) string:
appends the components obtained by splitting the pushed string on `/`. -/
def pushStr (p : PathC) (s : String) : PathC := p ++ splitStr '/' s

/-- A decoded raster bitmap (`image::DynamicImage`): dimensions as reported
by `GenericImageView::dimensions`, plus an abstract pixel payload. -/
structure Bitmap where
  width : Nat
  height : Nat
  pixels : List Nat
deriving DecidableEq

/-- One entry produced by the `WalkDir` traversal: `file_name().to_str()` and
`path().to_str()` (each `none` when the name is not valid UTF-8). -/
structure WalkEntry where
  fileName : Option String
  path : Option String
deriving DecidableEq

/-- A `reqwest::blocking` response: whether `status().is_success()` holds and
the result of `bytes()` (`none` when reading the body fails). -/
structure HttpResponse where
  statusSuccess : Bool
  body : Option ByteBuf
deriving DecidableEq

/-- Oracles standing for the external world: URL parsing (`url` crate),
vector parsing (`usvg`), raster decoding (`image`), filesystem and network
access.  Vector intrinsic sizes are `f32` values in the source, modelled as
rationals. -/
structure Env where
  /-- `Url::parse(s).is_ok()` -/
  urlValid : String → Bool
  /-- `Url::parse(s)` composed with `host_str()`: `none` when parsing fails,
  `some none` when the URL has no host. -/
  urlHost : String → Option (Option String)
  /-- `dirs::home_dir()` / `$HOME`, as used by `home_dir()` in the source. -/
  home : PathC
  /-- whether `create_dir_all(qwa_icons_location())` succeeds -/
  createDirOk : Bool
  /-- async `Client::new().get(path).send()` then `.bytes()`: `some` bytes
  only when both steps succeed. -/
  fetch : String → Option ByteBuf
  /-- `usvg::Tree::from_data` composed with `.size()`: intrinsic
  (width, height) when the bytes parse as a vector document. -/
  vectorParseData : ByteBuf → Option (ℚ × ℚ)
  /-- `usvg::Tree::from_str` composed with `.size()`. -/
  vectorParseStr : String → Option (ℚ × ℚ)
  /-- `ImageReader::new(Cursor::new(bytes)).with_guessed_format()` then
  `decode()`: decoded (width, height) when the bytes decode as a raster. -/
  rasterDecodeMem : ByteBuf → Option (Nat × Nat)
  /-- `ImageReader::open(path)` then `decode()`. -/
  rasterOpenDecode : String → Option (Nat × Nat)
  /-- `PathBuf::is_file` -/
  isFile : String → Bool
  /-- async `tokio::fs::File::open` then `read_to_end`: the bytes read. -/
  readFileBytes : String → Option ByteBuf
  /-- `tokio::fs::read_to_string` -/
  readToString : String → Option String
  /-- the sequence of entries yielded by `WalkDir::new(root)`, errors
  included (`none` = an `Err` entry). -/
  walk : PathC → List (Option WalkEntry)
  /-- `favicon::download_favicon(url)` (external collaborator). -/
  downloadFavicon : String → Except Unit (List String)
  /-- `image::load_from_memory` -/
  loadFromMemory : ByteBuf → Option Bitmap
  /-- whether `svg::save(save_path, document)` succeeds -/
  svgSaveOk : PathC → Bool
  /-- `reqwest::blocking::get(path)`: `none` when sending fails. -/
  blockingGet : String → Option HttpResponse
  /-- `File::open(path)` then `read_to_end(..)`: `none` = open failed,
  `some none` = reading failed, `some (some b)` = bytes read. -/
  fileOpen : String → Option (Option ByteBuf)
  /-- whether `copy(src, dst)` succeeds -/
  copyOk : String → PathC → Bool

/-- `url_valid` from the source: `Url::parse(url).is_ok()`. -/
def url_valid (env : Env) (url : String) : Bool := env.urlValid url

/-- Model of Rust `Path::file_name()`: the last normal component of the
path (skipping empty and `.` components); `none` when the path ends in `..`
or has no component. -/
def fileName (p : String) : Option String :=
  let comps := (splitStr '/' p).filter (fun c => c != "" && c != ".")
  match comps.getLast? with
  | some c => if c = ".." then none else some c
  | none => none

/-- Model of Rust `Path::extension()`: the part of the file name after the
last `.`, or `none` when there is no file name, no `.`, or the file name is
of the form `.xyz` (hidden file with a single dot). -/
def extension (p : String) : Option String :=
  match fileName p with
  | none => none
  | some f =>
    let parts := splitStr '.' f
    if parts.length ≤ 1 then none
    else if parts.dropLast = [""] then none
    else some (parts.getLast?.getD "")

/-- `is_svg` from the source: a non-URL path whose extension is exactly the
case-sensitive string `svg`. -/
def is_svg (env : Env) (path : String) : Bool :=
  if url_valid env path = false then
    if extension path = some "svg" then true else false
  else false

/-- `home_dir()` from the source; the lookup through `dirs::home_dir()` and
`$HOME` is external, modelled by the `home` oracle. -/
def home_dir (env : Env) : PathC := env.home

/-- `icons_location()` from the source. -/
def icons_location (env : Env) : PathC :=
  pushStr (home_dir env) ".local/share/icons"

/-- `system_icons()` from the source. -/
def system_icons : PathC := splitStr '/' "/usr/share/icons"

/-- `qwa_icons_location()` from the source. -/
def qwa_icons_location (env : Env) : PathC :=
  pushStr (icons_location env) "QuickWebApps"

/-- `icon_save_path` from the source:
`qwa_icons_location().join(format!("{}.svg", icon_name))`. -/
def icon_save_path (env : Env) (iconName : String) : PathC :=
  pushStr (qwa_icons_location env) (iconName ++ ".svg")

/-- `get_icon_name_from_url` from the source, with the out-of-bounds index
`parts[parts.len() - 2]` modelled as an `Except.error` (a Rust panic). -/
def get_icon_name_from_url (env : Env) (url : String) : Except String String :=
  match env.urlHost url with
  | none => .ok ""
  | some none => .ok ""
  | some (some host) =>
    let parts := splitStr '.' host
    if h : 2 ≤ parts.length then
      .ok (parts.get ⟨parts.length - 2, by omega⟩)
    else .error "index out of bounds"

/-- Substring test on character lists, checking the pattern at every
position. -/
def hasSubstrAux (pat : List Char) : List Char → Bool
  | [] => pat.isEmpty
  | c :: rest => pat.isPrefixOf (c :: rest) || hasSubstrAux pat rest

/-- Rust `str::contains(&pat)`: substring containment. -/
def strContains (s pat : String) : Bool := hasSubstrAux pat.data s.data

/-- One iteration of the `WalkDir` loop of `find_icon` in the source: an
`Err` entry (filtered by `filter_map(|e| e.ok())`) or any failing step leaves
the accumulator unchanged; a qualifying path not already present is appended. -/
def find_icon_step (env : Env) (iconName : String) (icons : List String) :
    Option WalkEntry → List String
  | none => icons
  | some ent =>
    match ent.fileName with
    | none => icons
    | some fn =>
      if strContains fn iconName then
        if is_svg env fn then
          match ent.path with
          | none => icons
          | some p =>
            match env.readToString p with
            | none => icons
            | some buffer =>
              match env.vectorParseStr buffer with
              | none => icons
              | some s =>
                if 64 ≤ s.1 ∧ 64 ≤ s.2 ∧ p ∉ icons then icons ++ [p] else icons
        else
          match ent.path with
          | none => icons
          | some p =>
            match env.rasterOpenDecode p with
            | none => icons
            | some wh =>
              if 64 ≤ wh.1 ∧ 64 ≤ wh.2 ∧ p ∉ icons then icons ++ [p] else icons
      else icons

/-- `find_icon` from the source: fold the walk of `path` through
`find_icon_step`, starting from the empty accumulator. -/
def find_icon (env : Env) (path : PathC) (iconName : String) : List String :=
  (env.walk path).foldl (find_icon_step env iconName) []

/-- `find_icons` from the source: favicon candidates (when the reference is
a valid URL and extraction succeeds), then the user icon-theme root, then the
system icon-theme root. -/
def find_icons (env : Env) (iconName url : String) : List String :=
  (if env.urlValid url then
    match env.downloadFavicon url with
    | .ok data => data
    | .error _ => []
  else [])
  ++ find_icon env (icons_location env) iconName
  ++ find_icon env system_icons iconName

/-- The `<image>` element built by `convert_raster_to_svg_format`.  The
`href` holds `data:image/png;base64,{encoded_img}` where `encoded_img` is
the base64 of the PNG re-encoding of the decoded bitmap; PNG encoding and
base64 are dimension-preserving and injective, so the payload is modelled by
carrying the bitmap itself. -/
structure SvgImageElement where
  x : Nat
  y : Nat
  width : Nat
  height : Nat
  png : Bitmap
deriving DecidableEq

/-- The `svg::Document` built by `convert_raster_to_svg_format`. -/
structure SvgDocument where
  width : Nat
  height : Nat
  images : List SvgImageElement
deriving DecidableEq

/-- Return value plus write effect of `convert_raster_to_svg_format`: the
returned save path, and the document written to disk (`none` when nothing
was written — decode failure or a failed `svg::save`). -/
structure ConvertResult where
  path : PathC
  written : Option SvgDocument
deriving DecidableEq

/-- `convert_raster_to_svg_format` from the source.  Note the source
discards the result of `svg::save` (`let _ = svg::save(..).is_ok();`) and
returns `save_path` on every path, including decode and write failures. -/
def convert_raster_to_svg_format (env : Env) (imgSlice : ByteBuf)
    (iconName : String) : ConvertResult :=
  let savePath := icon_save_path env iconName
  match env.loadFromMemory imgSlice with
  | some data =>
    let imageElement : SvgImageElement :=
      { x := 0, y := 0, width := data.width, height := data.height, png := data }
    let document : SvgDocument :=
      { width := data.width, height := data.height, images := [imageElement] }
    { path := savePath
      written := if env.svgSaveOk savePath then some document else none }
  | none => { path := savePath, written := none }

/-- Return value of `move_icon`: a Rust panic (`expect`/`unwrap`), the empty
string `String::new()`, the result of `convert_raster_to_svg_format`, or the
save path after a plain `copy`. -/
inductive MoveResult where
  | panicked (msg : String)
  | empty
  | converted (r : ConvertResult)
  | copied (path : PathC)
deriving DecidableEq

/-- The trailing branch of `move_icon`: `copy(&path, &save_path).unwrap()`
then return `save_path`. -/
def move_icon_copy (env : Env) (path : String) (iconName : String) : MoveResult :=
  let savePath := icon_save_path env iconName
  if env.copyOk path savePath then .copied savePath else .panicked "copy failed"

/-- `output_name.replace(' ', "")` from `move_icon`: replacing every space
character with the empty string removes all spaces. -/
def sanitizeName (s : String) : String := (s.data.filter (fun c => c ≠ ' ')).asString

/-- `move_icon` from the source. -/
def move_icon (env : Env) (path outputName : String) : MoveResult :=
  if env.createDirOk = false then .panicked "cant create folder for your icons"
  else
    let iconName := sanitizeName outputName
    if env.urlValid path then
      match env.blockingGet path with
      | none => .panicked "sending request"
      | some response =>
        if response.statusSuccess then
          match response.body with
          | none => .panicked "getting image bytes"
          | some content => .converted (convert_raster_to_svg_format env content iconName)
        else .empty
    else
      if is_svg env path = false then
        match env.fileOpen path with
        | some (some buffer) => .converted (convert_raster_to_svg_format env buffer iconName)
        | some none => .panicked "read_to_end failed"
        | none => move_icon_copy env path iconName
      else move_icon_copy env path iconName

/-- The icon handle of the source's `IconType`, with the payload recording
how the handle was built: `widget::svg::Handle::from_memory`,
`widget::svg::Handle::from_path`, or an in-memory raster handle
(`iced_core::image::Handle::from_bytes`). -/
inductive IconType where
  | svgMem (bytes : ByteBuf)
  | svgPath (path : String)
  | raster (bytes : ByteBuf)
deriving DecidableEq

/-- The `Icon` struct of the source. -/
structure Icon where
  icon : IconType
  path : String
  is_favicon : Bool
deriving DecidableEq

/-- The raster half of the remote branch of `image_handle`: decode the
fetched bytes from memory and accept at 96. -/
def remote_raster_try (env : Env) (path : String) (bytes : ByteBuf) : Option Icon :=
  match env.rasterDecodeMem bytes with
  | some wh =>
    if 96 ≤ wh.1 ∧ 96 ≤ wh.2 then
      some { icon := .raster bytes, path := path, is_favicon := true }
    else none
  | none => none

/-- The remote branch of `image_handle` (source lines 225-248): fetch, try
the vector parse at 96, then — whether the vector parse failed or its size
was below 96 — try a raster decode of the same bytes at 96.  `none` means
the branch produced no early return and control falls through to the local
branch. -/
def remote_resolve (env : Env) (path : String) : Option Icon :=
  if env.urlValid path then
    match env.fetch path with
    | some bytes =>
      (match env.vectorParseData bytes with
       | some s =>
         if 96 ≤ s.1 ∧ 96 ≤ s.2 then
           some { icon := .svgMem bytes, path := path, is_favicon := true }
         else remote_raster_try env path bytes
       | none => remote_raster_try env path bytes)
    | none => none
  else none

/-- The local branch of `image_handle` (source lines 250-274): an existing
file with extension `svg` is returned immediately as a path-based vector
handle with no decoding; any other existing file is read and raster-decoded
at 96. -/
def local_resolve (env : Env) (path : String) : Option Icon :=
  if env.isFile path then
    if is_svg env path then
      some { icon := .svgPath path, path := path, is_favicon := false }
    else
      match env.rasterDecodeMem ((env.readFileBytes path).getD []) with
      | some wh =>
        if 96 ≤ wh.1 ∧ 96 ≤ wh.2 then
          some { icon := .raster ((env.readFileBytes path).getD []),
                 path := path, is_favicon := false }
        else none
      | none => none
  else none

/-- `image_handle` from the source: the remote branch's early returns,
otherwise the local branch. -/
def image_handle (env : Env) (path : String) : Option Icon :=
  match remote_resolve env path with
  | some icon => some icon
  | none => local_resolve env path

/-- A closed environment where every external call fails or is empty, used
as the base for the concrete environments of the evaluation theorems. -/
def baseEnv : Env where
  urlValid _ := false
  urlHost _ := none
  home := ["", "home", "user"]
  createDirOk := true
  fetch _ := none
  vectorParseData _ := none
  vectorParseStr _ := none
  rasterDecodeMem _ := none
  rasterOpenDecode _ := none
  isFile _ := false
  readFileBytes _ := none
  readToString _ := none
  walk _ := []
  downloadFavicon _ := .error ()
  loadFromMemory _ := none
  svgSaveOk _ := false
  blockingGet _ := none
  fileOpen _ := none
  copyOk _ _ := false

/-! ### Theorems -/

/-- Claim C8: `is_svg` returns `true` exactly when the input string does not
parse as a valid URL and its path extension is exactly the case-sensitive
string `svg`; every valid-URL input yields `false` regardless of its
extension. -/
theorem c8_is_svg_iff (env : Env) (path : String) :
    (is_svg env path = true ↔ env.urlValid path = false ∧ extension path = some "svg")
    ∧ (env.urlValid path = true → is_svg env path = false) := by
  constructor
  · unfold is_svg url_valid
    cases h : env.urlValid path <;> simp [h]
  · intro h
    unfold is_svg url_valid
    simp [h]

/-- Witness for C8: a plain path with extension `svg` is classified as
vector, and the same extension on a valid URL is not. -/
theorem c8_witness :
    is_svg baseEnv "icons/app.svg" = true
    ∧ is_svg { baseEnv with urlValid := fun _ => true } "a.svg" = false :=
  ⟨(c8_is_svg_iff baseEnv "icons/app.svg").1.mpr (by decide),
   (c8_is_svg_iff { baseEnv with urlValid := fun _ => true } "a.svg").2 rfl⟩

/-- Claim C2 (amended): a failure of the destination-file write is silently
swallowed, not propagated: `convert_raster_to_svg_format` always returns the
destination save path, and when `svg::save` fails nothing is written while
the call still completes normally with that path. -/
theorem c2_swallowed_write_failure (env : Env) (imgSlice : ByteBuf) (iconName : String) :
    (convert_raster_to_svg_format env imgSlice iconName).path = icon_save_path env iconName
    ∧ (env.svgSaveOk (icon_save_path env iconName) = false →
        (convert_raster_to_svg_format env imgSlice iconName).written = none) := by
  constructor
  · unfold convert_raster_to_svg_format
    cases h : env.loadFromMemory imgSlice <;> simp [h]
  · intro hsave
    unfold convert_raster_to_svg_format
    cases h : env.loadFromMemory imgSlice <;> simp [h, hsave]

/-- Witness for C2's amended theorem: with the base environment (whose
`svg::save` fails) the call completes and nothing is written. -/
theorem c2_witness :
    (convert_raster_to_svg_format baseEnv [0] "App").written = none :=
  (c2_swallowed_write_failure baseEnv [0] "App").2 rfl

/-- Concrete environment for the write-failure run of
`convert_raster_to_svg_format`: the bytes decode as a 32×32 bitmap and
`svg::save` fails. -/
def envC2 : Env := { baseEnv with
  loadFromMemory := fun _ => some { width := 32, height := 32, pixels := [] } }

/-- Claim C2 (counterexample): although the bytes decode and `svg::save`
fails, `convert_raster_to_svg_format` completes normally, writes nothing,
and returns the destination path exactly as in a successful run — the write
failure is swallowed, not propagated. -/
theorem c2_counterexample :
    envC2.svgSaveOk (icon_save_path envC2 "App") = false
    ∧ envC2.loadFromMemory [7] = some { width := 32, height := 32, pixels := [] }
    ∧ (convert_raster_to_svg_format envC2 [7] "App").written = none
    ∧ (convert_raster_to_svg_format envC2 [7] "App").path = icon_save_path envC2 "App" := by
  decide

/-- Claim C6: `find_icons` returns favicon-derived candidates first, then
matches from the user icon-theme root, then matches from the system
icon-theme root, in that order; a favicon-extraction error (or an invalid
URL) contributes zero candidates and the two filesystem searches still
run. -/
theorem c6_find_icons_order (env : Env) (iconName url : String) :
    (env.urlValid url = false →
      find_icons env iconName url =
        find_icon env (icons_location env) iconName ++ find_icon env system_icons iconName)
    ∧ (∀ e, env.urlValid url = true → env.downloadFavicon url = .error e →
      find_icons env iconName url =
        find_icon env (icons_location env) iconName ++ find_icon env system_icons iconName)
    ∧ (∀ data, env.urlValid url = true → env.downloadFavicon url = .ok data →
      find_icons env iconName url =
        data ++ (find_icon env (icons_location env) iconName
                  ++ find_icon env system_icons iconName)) := by
  refine ⟨?_, ?_, ?_⟩ <;> intros <;> simp_all [find_icons]

/-- Concrete environment whose favicon extraction always fails. -/
def envC6 : Env := { baseEnv with urlValid := fun _ => true }

/-- Witness for C6: a failing favicon extraction leaves exactly the two
filesystem search results. -/
theorem c6_witness :
    find_icons envC6 "app" "https://example.com" =
      find_icon envC6 (icons_location envC6) "app" ++ find_icon envC6 system_icons "app" :=
  (c6_find_icons_order envC6 "app" "https://example.com").2.1 () rfl rfl

/-- Claim C9: `get_icon_name_from_url` panics (out-of-bounds vector index)
whenever the URL parses and its host has a single dot-separated label; it
returns the empty string when parsing fails or the URL has no host; and for
a host of two or more labels it returns the second-to-last label. -/
theorem c9_get_icon_name_cases (env : Env) (url : String) :
    (env.urlHost url = none → get_icon_name_from_url env url = .ok "")
    ∧ (env.urlHost url = some none → get_icon_name_from_url env url = .ok "")
    ∧ (∀ host, env.urlHost url = some (some host) → (splitStr '.' host).length = 1 →
        get_icon_name_from_url env url = .error "index out of bounds")
    ∧ (∀ host, env.urlHost url = some (some host) →
        ∀ h2 : 2 ≤ (splitStr '.' host).length,
        get_icon_name_from_url env url =
          .ok ((splitStr '.' host).get ⟨(splitStr '.' host).length - 2, by omega⟩)) := by
  refine ⟨?_, ?_, ?_, ?_⟩
  · intro h; simp [get_icon_name_from_url, h]
  · intro h; simp [get_icon_name_from_url, h]
  · intro host h h1
    have h2 : ¬ 2 ≤ (splitStr '.' host).length := by omega
    simp [get_icon_name_from_url, h, h2]
  · intro host h h2
    simp [get_icon_name_from_url, h, h2]

/-- Concrete environment for `get_icon_name_from_url`: the `url` crate
parses `https://localhost` with host `localhost` and `https://example.com`
with host `example.com`. -/
def envC9 : Env := { baseEnv with
  urlHost := fun u =>
    if u = "https://localhost" then some (some "localhost")
    else if u = "https://example.com" then some (some "example.com")
    else none }

/-- Witness for C9: `https://localhost` panics, `https://example.com` gives
`example`. -/
theorem c9_witness :
    get_icon_name_from_url envC9 "https://localhost" = .error "index out of bounds"
    ∧ get_icon_name_from_url envC9 "https://example.com" = .ok "example" :=
  ⟨(c9_get_icon_name_cases envC9 "https://localhost").2.2.1 "localhost" (by decide) (by decide),
   by simpa using
     (c9_get_icon_name_cases envC9 "https://example.com").2.2.2 "example.com" (by decide) (by decide)⟩

/-- Claim C10: for a valid-URL reference (with a creatable icon directory),
`move_icon` panics when the HTTP request cannot be sent or the response body
cannot be read, returns the empty string on a non-success status, and on
success hands the bytes straight to `convert_raster_to_svg_format` — it
never falls through to the local-path handling. -/
theorem c10_move_icon_remote (env : Env) (path outputName : String)
    (hdir : env.createDirOk = true) (hurl : env.urlValid path = true) :
    (env.blockingGet path = none →
      move_icon env path outputName = .panicked "sending request")
    ∧ (∀ r, env.blockingGet path = some r → r.statusSuccess = true → r.body = none →
        move_icon env path outputName = .panicked "getting image bytes")
    ∧ (∀ r, env.blockingGet path = some r → r.statusSuccess = false →
        move_icon env path outputName = .empty)
    ∧ (∀ r content, env.blockingGet path = some r → r.statusSuccess = true →
        r.body = some content →
        move_icon env path outputName =
          .converted (convert_raster_to_svg_format env content (sanitizeName outputName))) := by
  refine ⟨?_, ?_, ?_, ?_⟩
  · intro h; simp [move_icon, hdir, hurl, h]
  · intro r h hs hb; simp [move_icon, hdir, hurl, h, hs, hb]
  · intro r h hs; simp [move_icon, hdir, hurl, h, hs]
  · intro r content h hs hb; simp [move_icon, hdir, hurl, h, hs, hb]

/-- Concrete environment for the remote branch of `move_icon`: sending to
`https://down.example` fails, every other request gets a non-success
response. -/
def envC10 : Env := { baseEnv with
  urlValid := fun _ => true,
  blockingGet := fun u =>
    if u = "https://down.example" then none
    else some { statusSuccess := false, body := none } }

/-- Witness for C10: a failed send panics with `sending request`; a
non-success status returns the empty string. -/
theorem c10_witness :
    move_icon envC10 "https://down.example" "App" = .panicked "sending request"
    ∧ move_icon envC10 "https://e404.example" "App" = .empty :=
  ⟨(c10_move_icon_remote envC10 "https://down.example" "App" rfl rfl).1 (by decide),
   (c10_move_icon_remote envC10 "https://e404.example" "App" rfl rfl).2.2.1
     { statusSuccess := false, body := none } (by decide) rfl⟩

/-- When the remote branch falls through, `image_handle` is exactly the
local branch. -/
theorem image_handle_of_remote_none {env : Env} {path : String}
    (h : remote_resolve env path = none) :
    image_handle env path = local_resolve env path := by
  unfold image_handle
  rw [h]

/-- Claim C1 (amended): every icon produced by the remote branch of
`image_handle` (a direct network fetch whose bytes pass the gate at 96) has
`is_favicon = true`, not `false`; icons produced when the remote branch
yields nothing — filesystem resolution — have `is_favicon = false`. -/
theorem c1_is_favicon_flag (env : Env) (path : String) :
    (∀ icon, remote_resolve env path = some icon → icon.is_favicon = true)
    ∧ (remote_resolve env path = none →
        ∀ icon, image_handle env path = some icon → icon.is_favicon = false) := by
  have hraster : ∀ p bytes icon, remote_raster_try env p bytes = some icon →
      icon.is_favicon = true := by
    intro p bytes icon h
    unfold remote_raster_try at h
    rcases hd : env.rasterDecodeMem bytes with _ | wh
    · rw [hd] at h
      simp at h
    · rw [hd] at h
      simp only [] at h
      by_cases hwh : 96 ≤ wh.1 ∧ 96 ≤ wh.2
      · rw [if_pos hwh] at h
        injection h with h
        subst h
        rfl
      · rw [if_neg hwh] at h
        exact absurd h (by simp)
  constructor
  · intro icon h
    unfold remote_resolve at h
    by_cases hu : env.urlValid path = true
    · rw [if_pos hu] at h
      rcases hf : env.fetch path with _ | bytes
      · rw [hf] at h
        simp at h
      · rw [hf] at h
        simp only [] at h
        rcases hv : env.vectorParseData bytes with _ | s
        · rw [hv] at h
          simp only [] at h
          exact hraster _ _ _ h
        · rw [hv] at h
          simp only [] at h
          by_cases hs : 96 ≤ s.1 ∧ 96 ≤ s.2
          · rw [if_pos hs] at h
            injection h with h
            subst h
            rfl
          · rw [if_neg hs] at h
            exact hraster _ _ _ h
    · rw [if_neg hu] at h
      exact absurd h (by simp)
  · intro hr icon h
    rw [image_handle_of_remote_none hr] at h
    unfold local_resolve at h
    by_cases hfile : env.isFile path = true
    · rw [if_pos hfile] at h
      by_cases hsvg : is_svg env path = true
      · rw [if_pos hsvg] at h
        injection h with h
        subst h
        rfl
      · rw [if_neg hsvg] at h
        rcases hd : env.rasterDecodeMem ((env.readFileBytes path).getD []) with _ | wh
        · rw [hd] at h
          simp at h
        · rw [hd] at h
          simp only [] at h
          by_cases hwh : 96 ≤ wh.1 ∧ 96 ≤ wh.2
          · rw [if_pos hwh] at h
            injection h with h
            subst h
            rfl
          · rw [if_neg hwh] at h
            exact absurd h (by simp)
    · rw [if_neg hfile] at h
      exact absurd h (by simp)

/-- Concrete environment for the remote branch of `image_handle`: the fetch
succeeds and the bytes parse as a 96×96 vector document. -/
def envC1 : Env := { baseEnv with
  urlValid := fun _ => true,
  fetch := fun _ => some [1],
  vectorParseData := fun _ => some (96, 96) }

/-- Claim C1 (counterexample): a remote reference whose directly fetched
bytes are accepted by the vector gate at 96 resolves to an `Icon` with
`is_favicon = true`, contradicting the claimed `is_favicon = false`. -/
theorem c1_counterexample :
    envC1.urlValid "https://example.com/icon" = true
    ∧ envC1.fetch "https://example.com/icon" = some [1]
    ∧ envC1.vectorParseData [1] = some (96, 96)
    ∧ ((96 : ℚ) ≤ 96 ∧ (96 : ℚ) ≤ 96)
    ∧ image_handle envC1 "https://example.com/icon" =
        some { icon := .svgMem [1], path := "https://example.com/icon", is_favicon := true } := by
  decide

/-- Witness for C1's amended theorem: the remote-accepted icon of `envC1`
carries `is_favicon = true`. -/
theorem c1_witness :
    Icon.is_favicon
      { icon := .svgMem [1], path := "https://example.com/icon", is_favicon := true } = true :=
  (c1_is_favicon_flag envC1 "https://example.com/icon").1 _ (by decide)

/-- Claim C3 (amended): when the remote branch yields nothing and the
reference is an existing local file, a file with extension `svg` is accepted
immediately as a path-based vector handle with no read, no parse and no
dimension check, while any other existing file is read and raster-decoded
through the gate at 96. -/
theorem c3_local_resolution (env : Env) (path : String)
    (hremote : remote_resolve env path = none) (hfile : env.isFile path = true) :
    (is_svg env path = true →
      image_handle env path =
        some { icon := .svgPath path, path := path, is_favicon := false })
    ∧ (is_svg env path = false →
        ∀ icon, image_handle env path = some icon →
          ∃ wh, env.rasterDecodeMem ((env.readFileBytes path).getD []) = some wh
            ∧ 96 ≤ wh.1 ∧ 96 ≤ wh.2
            ∧ icon = { icon := .raster ((env.readFileBytes path).getD []),
                       path := path, is_favicon := false }) := by
  constructor
  · intro hsvg
    rw [image_handle_of_remote_none hremote]
    unfold local_resolve
    simp [hfile, hsvg]
  · intro hsvg icon h
    rw [image_handle_of_remote_none hremote] at h
    unfold local_resolve at h
    rw [if_pos hfile, if_neg (by simp [hsvg])] at h
    rcases hd : env.rasterDecodeMem ((env.readFileBytes path).getD []) with _ | wh
    · rw [hd] at h
      simp at h
    · rw [hd] at h
      simp only [] at h
      by_cases hwh : 96 ≤ wh.1 ∧ 96 ≤ wh.2
      · rw [if_pos hwh] at h
        injection h with h
        subst h
        exact ⟨wh, rfl, hwh.1, hwh.2, rfl⟩
      · rw [if_neg hwh] at h
        exact absurd h (by simp)

/-- Concrete environment for the local branch of `image_handle`: every path
is an existing file, every decoder fails, nothing can be read. -/
def envC3 : Env := { baseEnv with isFile := fun _ => true }

/-- Claim C3 (counterexample): in an environment where nothing can be read
and no byte buffer parses as a vector document at all, an existing local
file named `app.svg` is still accepted — the local vector branch runs no
Decoder Gate. -/
theorem c3_counterexample :
    envC3.urlValid "app.svg" = false
    ∧ envC3.isFile "app.svg" = true
    ∧ envC3.readFileBytes "app.svg" = none
    ∧ envC3.vectorParseStr "x" = none
    ∧ envC3.vectorParseData [] = none
    ∧ image_handle envC3 "app.svg" =
        some { icon := .svgPath "app.svg", path := "app.svg", is_favicon := false } := by
  decide

/-- Witness for C3's amended theorem: a local `svg` file is accepted without
any decoding. -/
theorem c3_witness :
    image_handle envC3 "local/icon.svg" =
      some { icon := .svgPath "local/icon.svg", path := "local/icon.svg", is_favicon := false } :=
  (c3_local_resolution envC3 "local/icon.svg" (by decide) rfl).1 (by decide)

/-- Claim C4 (amended): remotely fetched bytes that parse as a vector
document with both intrinsic dimensions ≥ 96 are accepted as a vector; when
either dimension is below 96 the vector result is discarded but the same
bytes fall through to the raster decoder, and are accepted as a raster
exactly when that decode reports both dimensions ≥ 96. -/
theorem c4_vector_gate (env : Env) (path : String) (bytes : ByteBuf)
    (hurl : env.urlValid path = true) (hfetch : env.fetch path = some bytes) :
    (∀ s, env.vectorParseData bytes = some s → 96 ≤ s.1 → 96 ≤ s.2 →
      image_handle env path =
        some { icon := .svgMem bytes, path := path, is_favicon := true })
    ∧ (∀ s, env.vectorParseData bytes = some s → ¬ (96 ≤ s.1 ∧ 96 ≤ s.2) →
        remote_resolve env path = remote_raster_try env path bytes) := by
  constructor
  · intro s hs h1 h2
    unfold image_handle remote_resolve
    simp [hurl, hfetch, hs, h1, h2]
  · intro s hs hlt
    unfold remote_resolve
    simp [hurl, hfetch, hs, hlt]

/-- Concrete environment where the fetched bytes parse both as a 50×50
vector document and as a 200×200 raster image. -/
def envC4 : Env := { baseEnv with
  urlValid := fun _ => true,
  fetch := fun _ => some [2],
  vectorParseData := fun _ => some (50, 50),
  rasterDecodeMem := fun _ => some (200, 200) }

/-- Claim C4 (counterexample): bytes parsing as a 50×50 vector document
(below the 96 threshold) are not rejected outright — the code falls through
to a raster decode of the same bytes and accepts them as a 200×200
raster. -/
theorem c4_counterexample :
    envC4.vectorParseData [2] = some (50, 50)
    ∧ ¬ ((96 : ℚ) ≤ 50)
    ∧ envC4.rasterDecodeMem [2] = some (200, 200)
    ∧ image_handle envC4 "https://example.com/i" =
        some { icon := .raster [2], path := "https://example.com/i", is_favicon := true } := by
  decide

/-- Concrete environment where the fetched bytes parse as a 100×150 vector
document. -/
def envC4w : Env := { baseEnv with
  urlValid := fun _ => true,
  fetch := fun _ => some [3],
  vectorParseData := fun _ => some (100, 150) }

/-- Witness for C4's amended theorem: a 100×150 vector document fetched
remotely is accepted as a vector. -/
theorem c4_witness :
    image_handle envC4w "https://example.org/logo" =
      some { icon := .svgMem [3], path := "https://example.org/logo", is_favicon := true } :=
  (c4_vector_gate envC4w "https://example.org/logo" [3] rfl rfl).1
    (100, 150) rfl (by norm_num) (by norm_num)

/-- Claim C7: normalizing a local raster file under a display name produces
the deterministic path `{home}/.local/share/icons/QuickWebApps/{name with
all spaces removed}.svg`, and the document written there declares the
bitmap's width and height and contains exactly one embedded
`data:image/png;base64` image whose decoded PNG dimensions equal the
bitmap's. -/
theorem c7_normalization (env : Env) (path outputName : String) (bytes : ByteBuf) (bm : Bitmap)
    (hdir : env.createDirOk = true)
    (hurl : env.urlValid path = false)
    (hsvg : is_svg env path = false)
    (hopen : env.fileOpen path = some (some bytes))
    (hload : env.loadFromMemory bytes = some bm)
    (hname : splitStr '/' (sanitizeName outputName ++ ".svg")
      = [sanitizeName outputName ++ ".svg"])
    (hsave : env.svgSaveOk (icon_save_path env (sanitizeName outputName)) = true) :
    move_icon env path outputName = .converted {
      path := env.home ++
        [".local", "share", "icons", "QuickWebApps", sanitizeName outputName ++ ".svg"],
      written := some {
        width := bm.width, height := bm.height,
        images := [{ x := 0, y := 0, width := bm.width, height := bm.height, png := bm }] } } := by
  have hsplit1 : splitStr '/' ".local/share/icons" = [".local", "share", "icons"] := by decide
  have hsplit2 : splitStr '/' "QuickWebApps" = ["QuickWebApps"] := by decide
  have hpath : icon_save_path env (sanitizeName outputName) =
      env.home ++
        [".local", "share", "icons", "QuickWebApps", sanitizeName outputName ++ ".svg"] := by
    unfold icon_save_path qwa_icons_location icons_location home_dir pushStr
    rw [hname, hsplit1, hsplit2]
    simp
  unfold move_icon
  simp only [hdir, hurl, hsvg, hopen, if_true, if_false, Bool.false_eq_true]
  unfold convert_raster_to_svg_format
  rw [hload]
  simp only [hpath] at hsave ⊢
  simp [hsave]

/-- Concrete environment for normalization: the local file holds bytes that
decode as a 32×32 bitmap, and `svg::save` succeeds. -/
def envC7 : Env := { baseEnv with
  fileOpen := fun _ => some (some [9]),
  loadFromMemory := fun _ => some { width := 32, height := 32, pixels := [5] },
  svgSaveOk := fun _ => true }

/-- Witness for C7: normalizing a 32×32 raster named `My Cool App` writes
`{home}/.local/share/icons/QuickWebApps/MyCoolApp.svg` with declared size
32×32 and one embedded 32×32 PNG. -/
theorem c7_witness :
    move_icon envC7 "downloads/app.png" "My Cool App" = .converted {
      path := envC7.home ++
        [".local", "share", "icons", "QuickWebApps", sanitizeName "My Cool App" ++ ".svg"],
      written := some {
        width := 32, height := 32,
        images := [{ x := 0, y := 0, width := 32, height := 32,
                     png := { width := 32, height := 32, pixels := [5] } }] } } :=
  c7_normalization envC7 "downloads/app.png" "My Cool App" [9]
    { width := 32, height := 32, pixels := [5] } rfl rfl (by decide) rfl rfl (by decide) rfl

/-- Qualification of a path by one walk entry, as enforced by
`find_icon_step`: an `Ok` entry whose path is `p`, whose file name contains
the searched fragment, and whose content passes the appropriate decode
(vector text parse, or raster open-and-decode) at 64. -/
def goodEntry (env : Env) (iconName : String) (e : Option WalkEntry) (p : String) : Prop :=
  ∃ ent, e = some ent ∧ ent.path = some p ∧
    ∃ fn, ent.fileName = some fn ∧ strContains fn iconName = true ∧
      ((is_svg env fn = true ∧ ∃ buffer s, env.readToString p = some buffer ∧
          env.vectorParseStr buffer = some s ∧ 64 ≤ s.1 ∧ 64 ≤ s.2)
       ∨ (is_svg env fn = false ∧ ∃ wh, env.rasterOpenDecode p = some wh ∧
          64 ≤ wh.1 ∧ 64 ≤ wh.2))

/-- One step of the `find_icon` fold either leaves the accumulator unchanged
or appends a single path that is not yet present and qualifies through its
entry. -/
theorem find_icon_step_shape (env : Env) (iconName : String) (icons : List String)
    (e : Option WalkEntry) :
    find_icon_step env iconName icons e = icons ∨
    ∃ p, p ∉ icons ∧ goodEntry env iconName e p ∧
      find_icon_step env iconName icons e = icons ++ [p] := by
  rcases e with _ | ent
  · exact Or.inl rfl
  simp only [find_icon_step]
  rcases hfn : ent.fileName with _ | fn
  · exact Or.inl rfl
  simp only []
  by_cases hc : strContains fn iconName = true
  case neg => rw [if_neg hc]; exact Or.inl rfl
  rw [if_pos hc]
  by_cases hsvg : is_svg env fn = true
  · rw [if_pos hsvg]
    rcases hp : ent.path with _ | p
    · exact Or.inl rfl
    simp only []
    rcases hrs : env.readToString p with _ | buffer
    · exact Or.inl rfl
    simp only []
    rcases hvp : env.vectorParseStr buffer with _ | s
    · exact Or.inl rfl
    simp only []
    by_cases hcond : 64 ≤ s.1 ∧ 64 ≤ s.2 ∧ p ∉ icons
    · rw [if_pos hcond]
      exact Or.inr ⟨p, hcond.2.2,
        ⟨ent, rfl, hp, fn, hfn, hc,
          Or.inl ⟨hsvg, buffer, s, hrs, hvp, hcond.1, hcond.2.1⟩⟩, rfl⟩
    · rw [if_neg hcond]
      exact Or.inl rfl
  · rw [if_neg hsvg]
    rcases hp : ent.path with _ | p
    · exact Or.inl rfl
    simp only []
    rcases hro : env.rasterOpenDecode p with _ | wh
    · exact Or.inl rfl
    simp only []
    by_cases hcond : 64 ≤ wh.1 ∧ 64 ≤ wh.2 ∧ p ∉ icons
    · rw [if_pos hcond]
      exact Or.inr ⟨p, hcond.2.2,
        ⟨ent, rfl, hp, fn, hfn, hc,
          Or.inr ⟨by simpa using hsvg, wh, hro, hcond.1, hcond.2.1⟩⟩, rfl⟩
    · rw [if_neg hcond]
      exact Or.inl rfl

/-- Invariant of the `find_icon` fold: starting from a duplicate-free
accumulator, the fold stays duplicate-free and every member either was
already present or qualifies through some entry of the folded list. -/
theorem find_icon_foldl_spec (env : Env) (iconName : String) :
    ∀ (l : List (Option WalkEntry)) (acc : List String), acc.Nodup →
      (l.foldl (find_icon_step env iconName) acc).Nodup ∧
      ∀ p ∈ l.foldl (find_icon_step env iconName) acc,
        p ∈ acc ∨ ∃ e ∈ l, goodEntry env iconName e p := by
  intro l
  induction l with
  | nil =>
    intro acc hacc
    exact ⟨hacc, fun p hp => Or.inl hp⟩
  | cons e t ih =>
    intro acc hacc
    rw [List.foldl_cons]
    rcases find_icon_step_shape env iconName acc e with hsh | ⟨p, hpn, hg, hsh⟩
    · rw [hsh]
      rcases ih acc hacc with ⟨h1, h2⟩
      refine ⟨h1, fun q hq => ?_⟩
      rcases h2 q hq with hq2 | ⟨e2, he2, hg2⟩
      · exact Or.inl hq2
      · exact Or.inr ⟨e2, List.mem_cons_of_mem _ he2, hg2⟩
    · rw [hsh]
      have hnd : (acc ++ [p]).Nodup := by
        simp [List.nodup_append, hacc, hpn]
      rcases ih (acc ++ [p]) hnd with ⟨h1, h2⟩
      refine ⟨h1, fun q hq => ?_⟩
      rcases h2 q hq with hq2 | ⟨e2, he2, hg2⟩
      · rcases List.mem_append.1 hq2 with hq3 | hq3
        · exact Or.inl hq3
        · have hqp : q = p := by simpa using hq3
          subst hqp
          exact Or.inr ⟨e, List.mem_cons_self _ _, hg⟩
      · exact Or.inr ⟨e2, List.mem_cons_of_mem _ he2, hg2⟩

/-- Claim C5: `find_icon` returns no duplicate path; every returned path was
produced by an `Ok` walk entry whose file name contains the fragment and
which passed the appropriate decode (vector tree-parse of the file text, or
raster open-and-decode) at 64; and an error entry anywhere in the walked
sequence is skipped without aborting — the fold with the error entry removed
is unchanged. -/
theorem c5_find_icon_spec (env : Env) (root : PathC) (iconName : String) :
    (find_icon env root iconName).Nodup
    ∧ (∀ p ∈ find_icon env root iconName, ∃ e ∈ env.walk root, goodEntry env iconName e p)
    ∧ (∀ l1 l2 : List (Option WalkEntry),
        (l1 ++ none :: l2).foldl (find_icon_step env iconName) [] =
          (l1 ++ l2).foldl (find_icon_step env iconName) []) := by
  refine ⟨?_, ?_, ?_⟩
  · exact (find_icon_foldl_spec env iconName (env.walk root) [] List.nodup_nil).1
  · intro p hp
    rcases (find_icon_foldl_spec env iconName (env.walk root) [] List.nodup_nil).2 p hp
      with h | h
    · simp at h
    · exact h
  · intro l1 l2
    rw [List.foldl_append, List.foldl_append, List.foldl_cons]
    rfl

/-- Concrete environment for the filesystem search: the walk yields a
qualifying entry, an error entry, the same qualifying entry again, an entry
whose name does not contain the fragment, and an entry that decodes below
the threshold. -/
def envC5 : Env := { baseEnv with
  walk := fun _ =>
    [some { fileName := some "app.png", path := some "/icons/app.png" },
     none,
     some { fileName := some "app.png", path := some "/icons/app.png" },
     some { fileName := some "other.png", path := some "/icons/other.png" },
     some { fileName := some "app-small.png", path := some "/icons/app-small.png" }],
  rasterOpenDecode := fun p =>
    if p = "/icons/app.png" then some (128, 128)
    else if p = "/icons/app-small.png" then some (32, 32)
    else none }

/-- Witness for C5: the search over `envC5` returns exactly the one
qualifying path once — the duplicate is dropped, the error entry is skipped,
the non-matching name and the 32×32 image are rejected. -/
theorem c5_witness :
    find_icon envC5 system_icons "app" = ["/icons/app.png"]
    ∧ (find_icon envC5 system_icons "app").Nodup :=
  ⟨by decide, (c5_find_icon_spec envC5 system_icons "app").1⟩

end WebApps
